import Mathlib

/-!
Shallow embedding of the CRTC control core of drm-rs (src/control/crtc.rs).

Machine integers are modelled as `Nat` (unsigned 32/64-bit fields) and `Int`
(signed 32-bit fields); a reduction `% 2 ^ 32` is written exactly where the
source performs a narrowing cast (`as u32`). The ioctl channel is modelled as
a `Device` record of state-passing exchange functions: each ioctl takes the
request record and returns the (possibly kernel-mutated) record or an error,
threading an abstract device state so that the number and order of exchanges
is observable. A borrowed slice is modelled as a `Slice`: the address of its
backing storage together with the list of its elements.
-/

namespace DrmRs

/-- The raw resource identifier type, control::RawHandle (a u32). -/
abbrev RawHandle := Nat

/-- A device-exchange failure: the opaque error the underlying channel
reports (errno-like), propagated unchanged by this core. -/
structure DrmError where
  errno : Nat
deriving DecidableEq, Repr

/-- A borrowed slice: the address of its backing storage (the value of
as_ptr, a pointer value, hence below 2 ^ 64) and the list of its elements. -/
structure Slice (α : Type) where
  addr : Nat
  data : List α

/-- The address of the backing storage of the slice (slice::as_ptr). -/
def Slice.as_ptr {α : Type} (s : Slice α) : Nat := s.addr

/-- The number of elements of the slice (slice::len, a usize). -/
def Slice.len {α : Type} (s : Slice α) : Nat := s.data.length

namespace ffi

/-- Modelled from the spec: the fixed kernel mode/timing block
(ffi::drm_mode_modeinfo), a display timing descriptor with resolution and
refresh parameters; Default::default() zero-fills it. Only its identity as a
block matters to this core, which copies it whole and never reads into it. -/
structure drm_mode_modeinfo where
  clock : Nat := 0
  hdisplay : Nat := 0
  vdisplay : Nat := 0
  vrefresh : Nat := 0
deriving DecidableEq, Repr

instance : Inhabited drm_mode_modeinfo := ⟨{}⟩

/-- Modelled from the spec: the get/set-CRTC request record
(ffi::drm_mode_crtc): connector-list pointer (u64) and count (u32), resource
identifier, framebuffer identifier, position x/y, gamma-table length,
mode-valid flag (0/1) and the mode/timing block. Default::default()
zero-fills every field. -/
structure drm_mode_crtc where
  set_connectors_ptr : Nat := 0
  count_connectors : Nat := 0
  crtc_id : Nat := 0
  fb_id : Nat := 0
  x : Nat := 0
  y : Nat := 0
  gamma_size : Nat := 0
  mode_valid : Nat := 0
  mode : drm_mode_modeinfo := {}
deriving DecidableEq, Repr

instance : Inhabited drm_mode_crtc := ⟨{}⟩

/-- Modelled from the spec: the cursor request record (ffi::drm_mode_cursor),
variant 1 and move: operation flag, resource identifier, signed position x/y,
width/height and the buffer-object identifier. No hotspot fields.
Default::default() zero-fills every field. -/
structure drm_mode_cursor where
  flags : Nat := 0
  crtc_id : Nat := 0
  x : Int := 0
  y : Int := 0
  width : Nat := 0
  height : Nat := 0
  handle : Nat := 0
deriving DecidableEq, Repr

instance : Inhabited drm_mode_cursor := ⟨{}⟩

/-- Modelled from the spec: the cursor request record variant 2
(ffi::drm_mode_cursor2): as variant 1 plus the signed hotspot x/y.
Default::default() zero-fills every field. -/
structure drm_mode_cursor2 where
  flags : Nat := 0
  crtc_id : Nat := 0
  x : Int := 0
  y : Int := 0
  width : Nat := 0
  height : Nat := 0
  handle : Nat := 0
  hot_x : Int := 0
  hot_y : Int := 0
deriving DecidableEq, Repr

instance : Inhabited drm_mode_cursor2 := ⟨{}⟩

/-- Modelled from the spec: the image-attach operation flag
(ffi::DRM_MODE_CURSOR_BO). -/
def DRM_MODE_CURSOR_BO : Nat := 1

/-- Modelled from the spec: the cursor-move operation flag
(ffi::DRM_MODE_CURSOR_MOVE), distinct from the image-attach flag. -/
def DRM_MODE_CURSOR_MOVE : Nat := 2

end ffi

/-- The device collaborator: anything that can perform a mode-setting ioctl
exchange. Each exchange takes the request record and returns the
kernel-mutated record or an error, stepping an abstract device state sigma so
that the exchanges an operation performs are observable. -/
structure Device (σ : Type) where
  ioctl_mode_getcrtc : σ → ffi.drm_mode_crtc → σ × Except DrmError ffi.drm_mode_crtc
  ioctl_mode_setcrtc : σ → ffi.drm_mode_crtc → σ × Except DrmError ffi.drm_mode_crtc
  ioctl_mode_cursor : σ → ffi.drm_mode_cursor → σ × Except DrmError ffi.drm_mode_cursor
  ioctl_mode_cursor2 : σ → ffi.drm_mode_cursor2 → σ × Except DrmError ffi.drm_mode_cursor2

namespace buffer

/-- Modelled from the spec: a buffer-object identifier (buffer::Id), a raw
unsigned identifier with a lossless as_raw conversion. -/
structure Id where
  raw : Nat
deriving DecidableEq, Repr

/-- The raw value of the buffer-object identifier. -/
def Id.as_raw (i : Id) : Nat := i.raw

end buffer

namespace control

namespace framebuffer

/-- A ResourceHandle for a framebuffer (control::framebuffer::Handle). -/
structure Handle where
  raw : RawHandle
deriving DecidableEq, Repr

/-- from_raw of ResourceHandle for framebuffer: wrap the raw identifier. -/
def Handle.from_raw (r : RawHandle) : Handle := ⟨r⟩

/-- as_raw of ResourceHandle for framebuffer: the wrapped raw identifier. -/
def Handle.as_raw (h : Handle) : RawHandle := h.raw

end framebuffer

namespace connector

/-- A ResourceHandle for a connector (control::connector::Handle). -/
structure Handle where
  raw : RawHandle
deriving DecidableEq, Repr

/-- from_raw of ResourceHandle for connector: wrap the raw identifier. -/
def Handle.from_raw (r : RawHandle) : Handle := ⟨r⟩

/-- as_raw of ResourceHandle for connector: the wrapped raw identifier. -/
def Handle.as_raw (h : Handle) : RawHandle := h.raw

end connector

/-- Modelled from the spec: control::Mode, a display timing descriptor
wrapping the kernel mode/timing block in its field mode (used by crtc::set as
m.mode). -/
structure Mode where
  mode : ffi.drm_mode_modeinfo
deriving DecidableEq, Repr

namespace crtc

/-- A ResourceHandle for a CRTC: a newtype over the raw identifier with no
validation (crtc::Handle). -/
structure Handle where
  raw : RawHandle
deriving DecidableEq, Repr

/-- from_raw of ResourceHandle for crtc::Handle: Handle(raw). Total, no
validation. -/
def Handle.from_raw (r : RawHandle) : Handle := ⟨r⟩

/-- as_raw of ResourceHandle for crtc::Handle: self.0. Total, lossless. -/
def Handle.as_raw (h : Handle) : RawHandle := h.raw

/-- A ResourceInfo for a CRTC (crtc::Info): the owning handle, the position,
the attached framebuffer and the gamma-table length. The field accessor
Info.handle models the handle() method of ResourceInfo. -/
structure Info where
  handle : Handle
  position : Nat × Nat
  fb : framebuffer.Handle
  gamma_length : Nat
deriving DecidableEq, Repr

/-- The request record load_from_device builds before the exchange: a
Default::default() record whose crtc_id field is set to the raw value of the
handle (lines 70-71 of crtc.rs). -/
def getcrtc_request (handle : Handle) : ffi.drm_mode_crtc :=
  let raw : ffi.drm_mode_crtc := default
  { raw with crtc_id := handle.raw }

/-- load_from_device of ResourceInfo for crtc::Info: build the request,
perform the single getcrtc exchange (try! propagates its failure), and on
success map the returned record into Info (lines 66-85 of crtc.rs). -/
def load_from_device {σ : Type} (device : Device σ) (s : σ) (handle : Handle) :
    σ × Except DrmError Info :=
  match device.ioctl_mode_getcrtc s (getcrtc_request handle) with
  | (s1, Except.error e) => (s1, Except.error e)
  | (s1, Except.ok raw) =>
      (s1, Except.ok { handle := handle,
                       position := (raw.x, raw.y),
                       fb := framebuffer.Handle.from_raw raw.fb_id,
                       gamma_length := raw.gamma_size })

/-- The request record crtc::set builds (lines 98-111 of crtc.rs): position,
identifiers, the connector-list address and count (cons.len() as u32 is a
narrowing cast, hence % 2 ^ 32), then conditionally the mode block and the
mode-valid flag. -/
def setcrtc_request (handle : Handle) (fb : framebuffer.Handle)
    (cons : Slice connector.Handle) (position : Nat × Nat)
    (mode : Option Mode) : ffi.drm_mode_crtc :=
  let raw : ffi.drm_mode_crtc := default
  let raw := { raw with
    x := position.1,
    y := position.2,
    crtc_id := handle.as_raw,
    fb_id := fb.as_raw,
    set_connectors_ptr := cons.as_ptr,
    count_connectors := cons.len % 2 ^ 32 }
  match mode with
  | some m => { raw with mode := m.mode, mode_valid := 1 }
  | none => raw

/-- crtc::set (lines 92-118 of crtc.rs): build the request record, perform
the single setcrtc exchange (try! propagates its failure), and return Ok(()). -/
def set {σ : Type} (device : Device σ) (s : σ) (handle : Handle)
    (fb : framebuffer.Handle) (cons : Slice connector.Handle)
    (position : Nat × Nat) (mode : Option Mode) : σ × Except DrmError Unit :=
  match device.ioctl_mode_setcrtc s (setcrtc_request handle fb cons position mode) with
  | (s1, Except.error e) => (s1, Except.error e)
  | (s1, Except.ok _) => (s1, Except.ok ())

/-- The request record crtc::set_cursor builds (lines 123-128 of crtc.rs):
the image-attach flag, the target, width/height and the buffer-object
identifier; every other field keeps its Default::default() value. -/
def set_cursor_request (handle : Handle) (bo : buffer.Id)
    (dimensions : Nat × Nat) : ffi.drm_mode_cursor :=
  let raw : ffi.drm_mode_cursor := default
  { raw with
    flags := ffi.DRM_MODE_CURSOR_BO,
    crtc_id := handle.as_raw,
    width := dimensions.1,
    height := dimensions.2,
    handle := bo.as_raw }

/-- crtc::set_cursor (lines 120-135 of crtc.rs): build the request, perform
the single cursor exchange, propagate its failure, return Ok(()). -/
def set_cursor {σ : Type} (device : Device σ) (s : σ) (handle : Handle)
    (bo : buffer.Id) (dimensions : Nat × Nat) : σ × Except DrmError Unit :=
  match device.ioctl_mode_cursor s (set_cursor_request handle bo dimensions) with
  | (s1, Except.error e) => (s1, Except.error e)
  | (s1, Except.ok _) => (s1, Except.ok ())

/-- The request record crtc::set_cursor2 builds (lines 140-147 of crtc.rs):
as set_cursor plus the signed hotspot; every other field keeps its
Default::default() value. -/
def set_cursor2_request (handle : Handle) (bo : buffer.Id)
    (dimensions : Nat × Nat) (hotspot : Int × Int) : ffi.drm_mode_cursor2 :=
  let raw : ffi.drm_mode_cursor2 := default
  { raw with
    flags := ffi.DRM_MODE_CURSOR_BO,
    crtc_id := handle.as_raw,
    width := dimensions.1,
    height := dimensions.2,
    handle := bo.as_raw,
    hot_x := hotspot.1,
    hot_y := hotspot.2 }

/-- crtc::set_cursor2 (lines 137-154 of crtc.rs): build the request, perform
the single cursor2 exchange, propagate its failure, return Ok(()). -/
def set_cursor2 {σ : Type} (device : Device σ) (s : σ) (handle : Handle)
    (bo : buffer.Id) (dimensions : Nat × Nat) (hotspot : Int × Int) :
    σ × Except DrmError Unit :=
  match device.ioctl_mode_cursor2 s (set_cursor2_request handle bo dimensions hotspot) with
  | (s1, Except.error e) => (s1, Except.error e)
  | (s1, Except.ok _) => (s1, Except.ok ())

/-- The request record crtc::move_cursor builds (lines 159-162 of crtc.rs):
the move flag, the target and the signed position; the buffer-object
identifier and width/height keep their Default::default() value. -/
def move_cursor_request (handle : Handle) (pos : Int × Int) : ffi.drm_mode_cursor :=
  let raw : ffi.drm_mode_cursor := default
  { raw with
    flags := ffi.DRM_MODE_CURSOR_MOVE,
    crtc_id := handle.as_raw,
    x := pos.1,
    y := pos.2 }

/-- crtc::move_cursor (lines 156-170 of crtc.rs): build the request, perform
the single cursor exchange, propagate its failure, return Ok(()). -/
def move_cursor {σ : Type} (device : Device σ) (s : σ) (handle : Handle)
    (pos : Int × Int) : σ × Except DrmError Unit :=
  match device.ioctl_mode_cursor s (move_cursor_request handle pos) with
  | (s1, Except.error e) => (s1, Except.error e)
  | (s1, Except.ok _) => (s1, Except.ok ())

end crtc

end control

/-- A concrete accepting device over a call counter: every exchange succeeds,
and getcrtc fills the output fields (with a response identifier 77 deliberately
different from any request identifier, so that responses are distinguishable
from arguments). -/
def okDevice : Device Nat where
  ioctl_mode_getcrtc := fun s req =>
    (s + 1, Except.ok { req with crtc_id := 77, x := 11, y := 22, fb_id := 9, gamma_size := 256 })
  ioctl_mode_setcrtc := fun s req => (s + 1, Except.ok req)
  ioctl_mode_cursor := fun s req => (s + 1, Except.ok req)
  ioctl_mode_cursor2 := fun s req => (s + 1, Except.ok req)

/-- A concrete failing device: every exchange is rejected with errno 13. -/
def errDevice : Device Nat where
  ioctl_mode_getcrtc := fun s _ => (s, Except.error ⟨13⟩)
  ioctl_mode_setcrtc := fun s _ => (s, Except.error ⟨13⟩)
  ioctl_mode_cursor := fun s _ => (s, Except.error ⟨13⟩)
  ioctl_mode_cursor2 := fun s _ => (s, Except.error ⟨13⟩)

/-- A concrete connector slice whose length, 2 ^ 32, does not fit in the
count_connectors field of the set-CRTC request. -/
def bigConnectorSlice : Slice control.connector.Handle :=
  ⟨4096, List.replicate (2 ^ 32) (control.connector.Handle.from_raw 2)⟩

/-- Claim C1: for every call to crtc::set, when the mode argument is none the
emitted request record has mode_valid = 0 and its mode/timing block still at
the zero/default value; when the mode argument is some m the request record
has mode_valid = 1 and its mode block equal to the block carried by m. -/
theorem set_mode_flag_encoding (handle : control.crtc.Handle)
    (fb : control.framebuffer.Handle) (cons : Slice control.connector.Handle)
    (position : Nat × Nat) :
    ((control.crtc.setcrtc_request handle fb cons position none).mode_valid = 0 ∧
      (control.crtc.setcrtc_request handle fb cons position none).mode =
        (default : ffi.drm_mode_modeinfo)) ∧
    ∀ m : control.Mode,
      (control.crtc.setcrtc_request handle fb cons position (some m)).mode_valid = 1 ∧
      (control.crtc.setcrtc_request handle fb cons position (some m)).mode = m.mode :=
  ⟨⟨rfl, rfl⟩, fun _ => ⟨rfl, rfl⟩⟩

/-- Claim C2 (amended): for every connector slice passed to crtc::set, the
emitted set-CRTC request's count_connectors field equals the length of the
slice reduced modulo 2 ^ 32 (hence the length itself whenever the length is
below 2 ^ 32), and its set_connectors_ptr field is the address of the backing
storage of the slice. -/
theorem set_connector_list_propagation (handle : control.crtc.Handle)
    (fb : control.framebuffer.Handle) (cons : Slice control.connector.Handle)
    (position : Nat × Nat) (mode : Option control.Mode) :
    (control.crtc.setcrtc_request handle fb cons position mode).count_connectors =
      cons.len % 2 ^ 32 ∧
    (control.crtc.setcrtc_request handle fb cons position mode).set_connectors_ptr =
      cons.as_ptr := by
  cases mode <;> exact ⟨rfl, rfl⟩

/-- Helper: the count_connectors field of the request crtc::set builds, for
any mode argument. -/
theorem setcrtc_request_count_connectors (handle : control.crtc.Handle)
    (fb : control.framebuffer.Handle) (cons : Slice control.connector.Handle)
    (position : Nat × Nat) (mode : Option control.Mode) :
    (control.crtc.setcrtc_request handle fb cons position mode).count_connectors =
      cons.len % 2 ^ 32 := by
  cases mode <;> rfl

/-- Claim C2 counterexample: for the concrete connector slice of length
2 ^ 32 the emitted count_connectors field is 0, not the length of the slice —
the narrowing cast of the length truncates it. -/
theorem set_connector_count_truncation_cex :
    (control.crtc.setcrtc_request (control.crtc.Handle.from_raw 5)
        (control.framebuffer.Handle.from_raw 9) bigConnectorSlice (0, 0)
        none).count_connectors = 0 ∧
    bigConnectorSlice.len = 2 ^ 32 ∧
    (control.crtc.setcrtc_request (control.crtc.Handle.from_raw 5)
        (control.framebuffer.Handle.from_raw 9) bigConnectorSlice (0, 0)
        none).count_connectors ≠ bigConnectorSlice.len := by
  have hcount := setcrtc_request_count_connectors (control.crtc.Handle.from_raw 5)
    (control.framebuffer.Handle.from_raw 9) bigConnectorSlice (0, 0) none
  have hlen : bigConnectorSlice.len = 2 ^ 32 :=
    List.length_replicate (2 ^ 32) (control.connector.Handle.from_raw 2)
  refine ⟨?_, hlen, ?_⟩
  · rw [hcount, hlen]
    exact Nat.mod_self _
  · rw [hcount, hlen, Nat.mod_self]
    norm_num

/-- Claim C3: crtc load_from_device builds a zeroed request record with only
its crtc_id field set to the raw value of the handle, performs exactly one
getcrtc exchange (its resulting device state is the state right after that
one exchange), and on a successful exchange returns the Info whose position
is the returned (x, y), whose fb is a framebuffer Handle built from the
returned fb_id and whose gamma_length is the returned gamma_size. -/
theorem load_from_device_success {σ : Type} (device : Device σ) (s s1 : σ)
    (handle : control.crtc.Handle) (r : ffi.drm_mode_crtc)
    (h : device.ioctl_mode_getcrtc s (control.crtc.getcrtc_request handle) =
      (s1, Except.ok r)) :
    control.crtc.getcrtc_request handle =
      { (default : ffi.drm_mode_crtc) with crtc_id := handle.as_raw } ∧
    control.crtc.load_from_device device s handle =
      (s1, Except.ok { handle := handle, position := (r.x, r.y),
                       fb := control.framebuffer.Handle.from_raw r.fb_id,
                       gamma_length := r.gamma_size }) := by
  refine ⟨rfl, ?_⟩
  unfold control.crtc.load_from_device
  rw [h]

/-- Concrete run of load_from_device on the accepting device: the request is
zeroed except crtc_id = 5, and the Info maps the returned fields. -/
theorem load_from_device_success_witness :
    control.crtc.getcrtc_request (control.crtc.Handle.from_raw 5) =
      { (default : ffi.drm_mode_crtc) with crtc_id := 5 } ∧
    control.crtc.load_from_device okDevice 0 (control.crtc.Handle.from_raw 5) =
      (1, Except.ok { handle := control.crtc.Handle.from_raw 5, position := (11, 22),
                      fb := control.framebuffer.Handle.from_raw 9,
                      gamma_length := 256 }) :=
  load_from_device_success okDevice 0 1 (control.crtc.Handle.from_raw 5)
    { control.crtc.getcrtc_request (control.crtc.Handle.from_raw 5) with
        crtc_id := 77, x := 11, y := 22, fb_id := 9, gamma_size := 256 }
    rfl

/-- Claim C4: set_cursor and set_cursor2 emit the image-attach flag,
move_cursor emits the move flag, and the request move_cursor emits carries no
buffer-object identifier and no width/height (those fields keep their
zero/default value). -/
theorem cursor_flag_selection (handle : control.crtc.Handle) (bo : buffer.Id)
    (dimensions : Nat × Nat) (hotspot : Int × Int) (pos : Int × Int) :
    (control.crtc.set_cursor_request handle bo dimensions).flags =
      ffi.DRM_MODE_CURSOR_BO ∧
    (control.crtc.set_cursor2_request handle bo dimensions hotspot).flags =
      ffi.DRM_MODE_CURSOR_BO ∧
    (control.crtc.move_cursor_request handle pos).flags =
      ffi.DRM_MODE_CURSOR_MOVE ∧
    (control.crtc.move_cursor_request handle pos).handle = 0 ∧
    (control.crtc.move_cursor_request handle pos).width = 0 ∧
    (control.crtc.move_cursor_request handle pos).height = 0 :=
  ⟨rfl, rfl, rfl, rfl, rfl, rfl⟩

/-- Claim C5: for each of the five fallible operations, when the device
exchange fails the operation's result is that same failure value unchanged
(and hence no Info or success value, and no partially populated Info, is
ever returned). -/
theorem error_propagation {σ : Type} (device : Device σ) (s s1 : σ)
    (e : DrmError) (handle : control.crtc.Handle)
    (fb : control.framebuffer.Handle) (cons : Slice control.connector.Handle)
    (position : Nat × Nat) (mode : Option control.Mode) (bo : buffer.Id)
    (dimensions : Nat × Nat) (hotspot : Int × Int) (pos : Int × Int)
    (h1 : device.ioctl_mode_getcrtc s (control.crtc.getcrtc_request handle) =
      (s1, Except.error e))
    (h2 : device.ioctl_mode_setcrtc s
      (control.crtc.setcrtc_request handle fb cons position mode) =
      (s1, Except.error e))
    (h3 : device.ioctl_mode_cursor s
      (control.crtc.set_cursor_request handle bo dimensions) =
      (s1, Except.error e))
    (h4 : device.ioctl_mode_cursor2 s
      (control.crtc.set_cursor2_request handle bo dimensions hotspot) =
      (s1, Except.error e))
    (h5 : device.ioctl_mode_cursor s
      (control.crtc.move_cursor_request handle pos) = (s1, Except.error e)) :
    control.crtc.load_from_device device s handle = (s1, Except.error e) ∧
    control.crtc.set device s handle fb cons position mode =
      (s1, Except.error e) ∧
    control.crtc.set_cursor device s handle bo dimensions =
      (s1, Except.error e) ∧
    control.crtc.set_cursor2 device s handle bo dimensions hotspot =
      (s1, Except.error e) ∧
    control.crtc.move_cursor device s handle pos = (s1, Except.error e) := by
  refine ⟨?_, ?_, ?_, ?_, ?_⟩
  · unfold control.crtc.load_from_device
    rw [h1]
  · unfold control.crtc.set
    rw [h2]
  · unfold control.crtc.set_cursor
    rw [h3]
  · unfold control.crtc.set_cursor2
    rw [h4]
  · unfold control.crtc.move_cursor
    rw [h5]

/-- Concrete run of the five operations on the failing device: each result is
the failure with errno 13, unchanged. -/
theorem error_propagation_witness :
    control.crtc.load_from_device errDevice 0 (control.crtc.Handle.from_raw 5) =
      (0, Except.error ⟨13⟩) ∧
    control.crtc.set errDevice 0 (control.crtc.Handle.from_raw 5)
      (control.framebuffer.Handle.from_raw 9)
      ⟨4096, [control.connector.Handle.from_raw 2]⟩ (0, 0) none =
      (0, Except.error ⟨13⟩) ∧
    control.crtc.set_cursor errDevice 0 (control.crtc.Handle.from_raw 5)
      ⟨7⟩ (64, 64) = (0, Except.error ⟨13⟩) ∧
    control.crtc.set_cursor2 errDevice 0 (control.crtc.Handle.from_raw 5)
      ⟨7⟩ (64, 64) (1, 2) = (0, Except.error ⟨13⟩) ∧
    control.crtc.move_cursor errDevice 0 (control.crtc.Handle.from_raw 5)
      (100, 200) = (0, Except.error ⟨13⟩) :=
  error_propagation errDevice 0 0 ⟨13⟩ (control.crtc.Handle.from_raw 5)
    (control.framebuffer.Handle.from_raw 9)
    ⟨4096, [control.connector.Handle.from_raw 2]⟩ (0, 0) none ⟨7⟩ (64, 64)
    (1, 2) (100, 200) rfl rfl rfl rfl rfl

/-- Claim C6: for every raw identifier r, including 0, as_raw (from_raw r)
equals r; both conversions are total functions and perform no validation. -/
theorem handle_raw_roundtrip (r : RawHandle) :
    control.crtc.Handle.as_raw (control.crtc.Handle.from_raw r) = r :=
  rfl

/-- Claim C7: the record emitted by set_cursor2 carries the supplied signed
hotspot in its hot_x and hot_y fields, while the record type set_cursor emits
has no hotspot fields at all: every drm_mode_cursor value is fully determined
by its flags, crtc_id, x, y, width, height and handle fields alone. -/
theorem hotspot_only_on_variant2 (handle : control.crtc.Handle)
    (bo : buffer.Id) (dimensions : Nat × Nat) (hotspot : Int × Int) :
    (control.crtc.set_cursor2_request handle bo dimensions hotspot).hot_x =
      hotspot.1 ∧
    (control.crtc.set_cursor2_request handle bo dimensions hotspot).hot_y =
      hotspot.2 ∧
    ∀ c : ffi.drm_mode_cursor,
      c = { flags := c.flags, crtc_id := c.crtc_id, x := c.x, y := c.y,
            width := c.width, height := c.height, handle := c.handle } := by
  refine ⟨rfl, rfl, fun c => ?_⟩
  cases c
  rfl

/-- Claim C8: calling crtc::set with handle raw id 5, framebuffer raw id 9,
connectors with raw ids 2 and 3, position (0, 0) and mode none emits a
request with crtc_id = 5, fb_id = 9, count_connectors = 2 and mode_valid = 0,
and returns success when the device exchange accepts the request. -/
theorem set_scenario {σ : Type} (device : Device σ) (s s1 : σ) (addr : Nat)
    (resp : ffi.drm_mode_crtc)
    (h : device.ioctl_mode_setcrtc s
      (control.crtc.setcrtc_request (control.crtc.Handle.from_raw 5)
        (control.framebuffer.Handle.from_raw 9)
        ⟨addr, [control.connector.Handle.from_raw 2,
                control.connector.Handle.from_raw 3]⟩ (0, 0) none) =
      (s1, Except.ok resp)) :
    (control.crtc.setcrtc_request (control.crtc.Handle.from_raw 5)
      (control.framebuffer.Handle.from_raw 9)
      ⟨addr, [control.connector.Handle.from_raw 2,
              control.connector.Handle.from_raw 3]⟩ (0, 0) none).crtc_id = 5 ∧
    (control.crtc.setcrtc_request (control.crtc.Handle.from_raw 5)
      (control.framebuffer.Handle.from_raw 9)
      ⟨addr, [control.connector.Handle.from_raw 2,
              control.connector.Handle.from_raw 3]⟩ (0, 0) none).fb_id = 9 ∧
    (control.crtc.setcrtc_request (control.crtc.Handle.from_raw 5)
      (control.framebuffer.Handle.from_raw 9)
      ⟨addr, [control.connector.Handle.from_raw 2,
              control.connector.Handle.from_raw 3]⟩ (0, 0)
      none).count_connectors = 2 ∧
    (control.crtc.setcrtc_request (control.crtc.Handle.from_raw 5)
      (control.framebuffer.Handle.from_raw 9)
      ⟨addr, [control.connector.Handle.from_raw 2,
              control.connector.Handle.from_raw 3]⟩ (0, 0) none).mode_valid = 0 ∧
    control.crtc.set device s (control.crtc.Handle.from_raw 5)
      (control.framebuffer.Handle.from_raw 9)
      ⟨addr, [control.connector.Handle.from_raw 2,
              control.connector.Handle.from_raw 3]⟩ (0, 0) none =
      (s1, Except.ok ()) := by
  refine ⟨rfl, rfl, rfl, rfl, ?_⟩
  unfold control.crtc.set
  rw [h]

/-- Concrete run of the C8 scenario on the accepting device at slice address
4096. -/
theorem set_scenario_witness :
    (control.crtc.setcrtc_request (control.crtc.Handle.from_raw 5)
      (control.framebuffer.Handle.from_raw 9)
      ⟨4096, [control.connector.Handle.from_raw 2,
              control.connector.Handle.from_raw 3]⟩ (0, 0) none).crtc_id = 5 ∧
    (control.crtc.setcrtc_request (control.crtc.Handle.from_raw 5)
      (control.framebuffer.Handle.from_raw 9)
      ⟨4096, [control.connector.Handle.from_raw 2,
              control.connector.Handle.from_raw 3]⟩ (0, 0) none).fb_id = 9 ∧
    (control.crtc.setcrtc_request (control.crtc.Handle.from_raw 5)
      (control.framebuffer.Handle.from_raw 9)
      ⟨4096, [control.connector.Handle.from_raw 2,
              control.connector.Handle.from_raw 3]⟩ (0, 0)
      none).count_connectors = 2 ∧
    (control.crtc.setcrtc_request (control.crtc.Handle.from_raw 5)
      (control.framebuffer.Handle.from_raw 9)
      ⟨4096, [control.connector.Handle.from_raw 2,
              control.connector.Handle.from_raw 3]⟩ (0, 0) none).mode_valid = 0 ∧
    control.crtc.set okDevice 0 (control.crtc.Handle.from_raw 5)
      (control.framebuffer.Handle.from_raw 9)
      ⟨4096, [control.connector.Handle.from_raw 2,
              control.connector.Handle.from_raw 3]⟩ (0, 0) none =
      (1, Except.ok ()) :=
  set_scenario okDevice 0 1 4096
    (control.crtc.setcrtc_request (control.crtc.Handle.from_raw 5)
      (control.framebuffer.Handle.from_raw 9)
      ⟨4096, [control.connector.Handle.from_raw 2,
              control.connector.Handle.from_raw 3]⟩ (0, 0) none)
    rfl

/-- Claim C9: when load_from_device succeeds, the handle field of the
returned Info equals the handle argument that was passed in; the response
record r is arbitrary here, so the handle is taken from the argument and not
from any identifier field of the response. -/
theorem info_handle_from_argument {σ : Type} (device : Device σ) (s s1 : σ)
    (handle : control.crtc.Handle) (r : ffi.drm_mode_crtc)
    (i : control.crtc.Info)
    (hx : device.ioctl_mode_getcrtc s (control.crtc.getcrtc_request handle) =
      (s1, Except.ok r))
    (hi : (control.crtc.load_from_device device s handle).2 = Except.ok i) :
    i.handle = handle := by
  unfold control.crtc.load_from_device at hi
  rw [hx] at hi
  have h2 : Except.ok ({ handle := handle, position := (r.x, r.y),
                         fb := control.framebuffer.Handle.from_raw r.fb_id,
                         gamma_length := r.gamma_size } :
      control.crtc.Info) = Except.ok i := hi
  injection h2 with h3
  rw [← h3]

/-- Concrete run on the accepting device, whose getcrtc response carries the
identifier 77: the Info handle is still the argument, raw id 5. -/
theorem info_handle_from_argument_witness :
    ({ handle := control.crtc.Handle.from_raw 5, position := (11, 22),
       fb := control.framebuffer.Handle.from_raw 9, gamma_length := 256 } :
      control.crtc.Info).handle = control.crtc.Handle.from_raw 5 :=
  info_handle_from_argument okDevice 0 1 (control.crtc.Handle.from_raw 5)
    { control.crtc.getcrtc_request (control.crtc.Handle.from_raw 5) with
        crtc_id := 77, x := 11, y := 22, fb_id := 9, gamma_size := 256 }
    { handle := control.crtc.Handle.from_raw 5, position := (11, 22),
      fb := control.framebuffer.Handle.from_raw 9, gamma_length := 256 }
    rfl rfl

/-- Claim C10: the position fields x and y of the records emitted by
set_cursor and set_cursor2 keep their zero/default value: an image-attach
request never carries a cursor position. -/
theorem cursor_image_position_zero (handle : control.crtc.Handle)
    (bo : buffer.Id) (dimensions : Nat × Nat) (hotspot : Int × Int) :
    (control.crtc.set_cursor_request handle bo dimensions).x = 0 ∧
    (control.crtc.set_cursor_request handle bo dimensions).y = 0 ∧
    (control.crtc.set_cursor2_request handle bo dimensions hotspot).x = 0 ∧
    (control.crtc.set_cursor2_request handle bo dimensions hotspot).y = 0 :=
  ⟨rfl, rfl, rfl, rfl⟩

end DrmRs
